import Mathlib

/-!
Shallow embedding of `keep2bear.py`, a converter from exported Google Keep
notes to Bear textbundle packages.  Pure string manipulation is translated
directly; filesystem state is passed explicitly (an `isFile` / `existsFs`
predicate on paths, and the produced package is returned as a value instead
of being written to disk); Python exceptions become `Except`; the two
`uuid4()` calls and the local-timezone ISO rendering of timestamps are
passed in as explicit parameters.
-/

namespace Keep2Bear

/-- Python `s.split(sep)` for a single-character separator: splits on every
occurrence, `"".split(sep) = [""]`, no chunk contains the separator. -/
def pySplit (s : String) (sep : Char) : List String :=
  (s.data.splitOn sep).map fun l => { data := l }

/-- Python `sep.join(parts)`. -/
def pyJoin (sep : String) (parts : List String) : String :=
  { data := List.intercalate sep.data (parts.map String.data) }

/-- Python `s[:n]` slice (first `n` characters). -/
def pySlice (s : String) (n : Nat) : String :=
  { data := s.data.take n }

/-- Python `repr`/`str` of a bool (`True` / `False`). -/
def pyBool (b : Bool) : String := if b then "True" else "False"

/-- A filesystem path, modelled as its list of components as in
`pathlib.PurePath.parts` (the anchor is ignored). -/
abbrev FsPath := List String

/-- `pathlib`: dividing a path by a string splits the string on the path
separator and appends the resulting components. -/
def pathParts (s : String) : FsPath := pySplit s '/'

/-- `str()` of a `pathlib` path: components joined by the separator. -/
def pathStr (p : FsPath) : String := pyJoin "/" p

/-- `pathlib.PurePath.name`: the final path component. -/
def pathName (p : FsPath) : String := p.getLast?.getD ""

/-- Constant `TB_EXT` (line 10 of the source). -/
def TB_EXT : String := "textbundle"

/-- Constant `TB_CONTENT_FILE` (line 11). -/
def TB_CONTENT_FILE : String := "text.txt"

/-- Constant `TB_METADATA_FILE` (line 12). -/
def TB_METADATA_FILE : String := "info.json"

/-- Constant `TB_ASSET_DIR` (line 13). -/
def TB_ASSET_DIR : String := "assets"

/-- One checklist entry of a note's `listContent`. -/
structure ListItem where
  text : String
  isChecked : Bool
deriving Repr, DecidableEq

/-- One entry of a note's `annotations` list, tagged by its `source`
discriminator; the fields used by the WEBLINK converter. -/
structure NoteAnn where
  source : String
  title : String := ""
  url : String := ""
  description : String := ""
deriving Repr, DecidableEq

/-- One entry of a note's `attachments` list. -/
structure Attachment where
  filePath : String
deriving Repr, DecidableEq

/-- A parsed Google Keep note record (the JSON object handed to
`process_note`).  Keys that may be absent from the JSON mapping are
`Option`s; the remaining keys are accessed unconditionally by the code. -/
structure Note where
  title : String := ""
  textContent : Option String := none
  listContent : Option (List ListItem) := none
  annotations : Option (List NoteAnn) := none
  attachments : Option (List Attachment) := none
  isPinned : Bool := false
  isArchived : Bool := false
  isTrashed : Bool := false
  color : String := "DEFAULT"
  userEditedTimestampUsec : Int := 0
deriving Repr, DecidableEq

/-- Errors the conversion can raise: `ConversionError(msg)`, the
`FileExistsError` of `mkdir(exist_ok=False)`, and the `NameError` raised
when `content` is referenced without having been assigned. -/
inductive PyErr where
  | conversionError (msg : String)
  | fileExistsError (path : String)
  | nameError (name : String)
deriving Repr, DecidableEq

deriving instance DecidableEq for Except

/-- Python `"%s" % note`: the `repr` of the parsed note mapping, as
interpolated into the missing-file error message.  We model it by a
rendering of the note's scalar fields (the list-valued fields are elided);
all that matters for the claims is that it identifies the offending note. -/
def noteRepr (n : Note) : String :=
  "\x7b\x27title\x27: \x27" ++ n.title ++ "\x27, \x27color\x27: \x27" ++ n.color ++
    "\x27, \x27isPinned\x27: " ++ pyBool n.isPinned ++
    ", \x27isArchived\x27: " ++ pyBool n.isArchived ++
    ", \x27isTrashed\x27: " ++ pyBool n.isTrashed ++
    ", \x27userEditedTimestampUsec\x27: " ++ toString n.userEditedTimestampUsec ++ "\x7d"

/-- `datetime.fromtimestamp`: a datetime instant, modelled as exact rational
seconds since the epoch (Python routes this through a float; the claims are
about the intended exact arithmetic, so the rounding of the float detour is
out of the model's scope). -/
def datetime_fromtimestamp (secs : ℚ) : ℚ := secs

/-- `datetime_to_str` (lines 38-39): `ts.astimezone().replace(microsecond=0).isoformat()`.
`astimezone` preserves the instant, `replace(microsecond=0)` drops the
sub-second part of the wall-clock time, i.e. floors the instant to a whole
second (timezone offsets are whole minutes); the local-timezone ISO-8601
rendering itself is the abstract parameter `render`. -/
def datetime_to_str (render : Int → String) (ts : ℚ) : String :=
  render ⌊ts⌋

/-- `new_tbundle_meta`'s inner `net.shinyfrog.bear` mapping (lines 48-59). -/
structure BearMeta where
  pinned : Nat
  trashedDate : Option String
  archived : Nat
  modificationDate : String
  creationDate : String
  pinnedDate : Option String
  trashed : Nat
  uniqueIdentifier : String
  archivedDate : Option String
  lastEditingDevice : String
deriving Repr, DecidableEq

/-- The full metadata mapping built by `new_tbundle_meta` (lines 46-65). -/
structure TBundleMeta where
  bear : BearMeta
  transient : Bool
  type : String
  creatorIdentifier : String
  version : Nat
deriving Repr, DecidableEq

/-- `new_tbundle_meta` (lines 46-65); the `str(uuid4())` call is the
explicit parameter `uuid`. -/
def new_tbundle_meta (created_ts mod_ts : String) (pinned archived trashed : Bool)
    (uuid : String) : TBundleMeta :=
  { bear :=
      { pinned := if pinned then 1 else 0
        trashedDate := if trashed then some mod_ts else none
        archived := if archived then 1 else 0
        modificationDate := mod_ts
        creationDate := created_ts
        pinnedDate := if pinned then some mod_ts else none
        trashed := if trashed then 1 else 0
        uniqueIdentifier := uuid
        archivedDate := if archived then some mod_ts else none
        lastEditingDevice := "keep2bear" }
    transient := true
    type := "public.plain-text"
    creatorIdentifier := "net.shinyfrog.bear"
    version := 2 }

/-- `convert_metadata` (lines 68-82):
`mod_ts = datetime_to_str(datetime.fromtimestamp(int(note["userEditedTimestampUsec"]) / 10e5))`.
The literal `10e5` is kept as written in the source. -/
def convert_metadata (render : Int → String) (note : Note) (created_ts : String)
    (uuid : String) : TBundleMeta :=
  let mod_ts := datetime_to_str render
    (datetime_fromtimestamp ((note.userEditedTimestampUsec : ℚ) / (10e5 : ℚ)))
  new_tbundle_meta created_ts mod_ts note.isPinned note.isArchived note.isTrashed uuid

/-- The loop body of `convert_list` (lines 88-89):
`" ".join([check_status, item["text"]])` is `check_status ++ " " ++ text`. -/
def convert_list_line (item : ListItem) : String :=
  (if item.isChecked then "+" else "-") ++ " " ++ item.text

/-- `convert_list` (lines 85-90). -/
def convert_list (l : List ListItem) : String :=
  pyJoin "\n" (l.map convert_list_line)

/-- `ann_convert_weblink` (lines 93-97): the template
`"[{title}]({url})\n> {description}"` instantiated. -/
def ann_convert_weblink (ann : NoteAnn) : String :=
  "[" ++ ann.title ++ "](" ++ ann.url ++ ")\n> " ++ ann.description

/-- The loop body of `convert_note_annotations` (lines 110-114): converts
the entries in order and aborts at the first one whose `source` is not a
key of the `converters` mapping, whose only key is `"WEBLINK"`. -/
def convertAnns : List NoteAnn → Except PyErr (List String)
  | [] => .ok []
  | ann :: rest =>
    if ann.source = "WEBLINK" then
      match convertAnns rest with
      | .error e => .error e
      | .ok tail => .ok (ann_convert_weblink ann :: tail)
    else
      .error (.conversionError ("Unknown annotation type: \x27" ++ ann.source ++ "\x27"))

/-- `convert_note_annotations` (lines 100-115): when the `"annotations"`
key is present, an empty string is appended before the converted blocks and
the result is newline-joined. -/
def convert_note_annotations (note : Note) : Except PyErr String :=
  match note.annotations with
  | none => .ok (pyJoin "\n" [])
  | some anns =>
    match convertAnns anns with
    | .error e => .error e
    | .ok blocks => .ok (pyJoin "\n" ("" :: blocks))

/-- Content selection of `convert_note_text` (lines 122-125): `textContent`
verbatim if present, else the rendered `listContent`, else unassigned. -/
def contentOf (note : Note) : Option String :=
  match note.textContent with
  | some t => some t
  | none => note.listContent.map convert_list

/-- `convert_note_text` (lines 118-143).  When neither body key is present
the Python code raises `NameError` at the first use of `content`; both uses
(line 133 and line 135) happen before the annotations are converted, so the
error order of the source is preserved. -/
def convert_note_text (note : Note) (ignore_colors : Bool) :
    Except PyErr (String × List String) :=
  match contentOf note with
  | none => .error (.nameError "content")
  | some content =>
    match convert_note_annotations note with
    | .error e => .error e
    | .ok annStr =>
      let headText : List String := if note.title = "" then [] else ["# " ++ note.title]
      let title := if note.title = "" then (pySplit content '\n').headD "" else note.title
      let text := headText ++ [content] ++ [annStr]
      let text := if note.color = "DEFAULT" ∨ ignore_colors then text
        else text ++ ["#" ++ note.color]
      .ok (title, text)

/-- The loop of `convert_note_attachments` (lines 149-159): resolves each
attachment against the source directory, aborting at the first path that is
not a file; `ns` is the interpolated `repr` of the note. -/
def convertAtts (srcpath : FsPath) (isFile : FsPath → Bool) (ns : String) :
    List Attachment → Except PyErr (List FsPath × List String)
  | [] => .ok ([], [])
  | att :: rest =>
    let src_file := srcpath ++ pathParts att.filePath
    if isFile src_file then
      match convertAtts srcpath isFile ns rest with
      | .error e => .error e
      | .ok (assets, embeds) =>
        .ok (src_file :: assets, ("[" ++ TB_ASSET_DIR ++ "/" ++ att.filePath ++ "]") :: embeds)
    else
      .error (.conversionError ("could not find file \x27" ++ pathStr src_file ++
        "\x27 referenced by note \x27" ++ ns ++ "\x27"))

/-- `convert_note_attachments` (lines 146-160). -/
def convert_note_attachments (note : Note) (srcpath : FsPath) (isFile : FsPath → Bool) :
    Except PyErr (List FsPath × List String) :=
  match note.attachments with
  | none => .ok ([], [])
  | some atts => convertAtts srcpath isFile (noteRepr note) atts

/-- Lines 165-167 of `write_textbundle`: keep only alphanumeric characters
and `"._- "`, truncate to 50 characters, append the fixed extension. -/
def tb_base_title (title : String) : String :=
  ({ data := (title.data.filter fun c => c.isAlphanum || "._- ".data.contains c).take 50
    : String }) ++ "." ++ TB_EXT

/-- The on-disk package produced by one successful `write_textbundle` call:
the created directory, the asset copies (destination relative to the
package directory, paired with the source path), and the two files. -/
structure TextBundle where
  dirName : String
  dirPath : FsPath
  assetCopies : List (FsPath × FsPath)
  metaRecord : TBundleMeta
  contentText : String
deriving Repr, DecidableEq

/-- `write_textbundle` (lines 163-188).  `existsFs` is the state of the
output root when the call starts, `uuid` the `str(uuid4())` drawn on a
collision.  `tb_dir.mkdir(exist_ok=False)` raises `FileExistsError` when
the (possibly disambiguated) directory still exists; otherwise the bundle
is created fresh, so the later `mkdir`/`open` calls inside it succeed and
`shutil.copy` places each asset under its base filename. -/
def write_textbundle (title : String) (text : List String) (meta : TBundleMeta)
    (assets : List FsPath) (outdir : FsPath) (existsFs : FsPath → Bool)
    (uuid : String) : Except PyErr TextBundle :=
  let tb_title := tb_base_title title
  let tb_title := if existsFs (outdir ++ [tb_title]) then tb_title ++ pySlice uuid 8
    else tb_title
  let tb_dir := outdir ++ [tb_title]
  if existsFs tb_dir then .error (.fileExistsError (pathStr tb_dir))
  else .ok
    { dirName := tb_title
      dirPath := tb_dir
      assetCopies := assets.map fun src => ([TB_ASSET_DIR, pathName src], src)
      metaRecord := meta
      contentText := pyJoin "\n" text }

/-- `process_note` (lines 191-202): metadata, then text, then attachments,
then `text += embeds`, then the write.  An error from any stage aborts the
note before `write_textbundle` runs, i.e. before any directory is created:
an `.error` result stands for "no filesystem output was produced". -/
def process_note (render : Int → String) (note : Note) (created_ts : String)
    (srcpath outdir : FsPath) (ignore_colors : Bool)
    (isFile existsFs : FsPath → Bool) (uuidMeta uuidDir : String) :
    Except PyErr TextBundle :=
  let meta := convert_metadata render note created_ts uuidMeta
  match convert_note_text note ignore_colors with
  | .error e => .error e
  | .ok (title, text) =>
    match convert_note_attachments note srcpath isFile with
    | .error e => .error e
    | .ok (assets, embeds) =>
      write_textbundle title (text ++ embeds) meta assets outdir existsFs uuidDir

/-- The lines of a rendered content string: none for the empty string,
otherwise the chunks between newline characters (Python `splitlines` on
strings with no trailing newline). -/
def pyLines (s : String) : List String :=
  if s = "" then [] else pySplit s '\n'

/-- Concrete note for the C1 counterexample and witness: one annotation
whose discriminator is `BOOK`. -/
def c1Note : Note :=
  { title := "mynote", textContent := some "body",
    annotations := some [{ source := "BOOK" }] }

/-- Concrete note for the C2 witness: one dangling attachment reference. -/
def c2Note : Note :=
  { title := "n2", textContent := some "body",
    attachments := some [{ filePath := "gone.png" }] }

/-- Concrete annotation for the C3 witness. -/
def w3Ann : NoteAnn :=
  { source := "WEBLINK", title := "t", url := "u", description := "d" }

/-- Concrete note for the C3 witness. -/
def w3Note : Note := { title := "x", annotations := some [w3Ann] }

/-- Concrete note for the C4 witness. -/
def w4Note : Note :=
  { title := "Head", textContent := some "line1\nline2", color := "RED" }

/-- Concrete note for the C8 counterexample: the attachment's relative path
has a directory component. -/
def c8Note : Note :=
  { title := "n8", attachments := some [{ filePath := "sub/pic.png" }] }

/-- Concrete note for the C8 witness. -/
def w8Note : Note :=
  { title := "w8", attachments := some [{ filePath := "pic.png" }] }

/-- A throwaway metadata record for the C8/C9 package-writer statements. -/
def cMeta : TBundleMeta := new_tbundle_meta "c" "m" false false false "u"

/-- Output-root state for the C9 witness: exactly the unsuffixed package
directory already exists. -/
def c9Exists : FsPath → Bool := fun p => p == ["out", "T.textbundle"]

/-- Concrete note for the C10 witness: both body shapes present. -/
def w10Note : Note :=
  { title := "T", textContent := some "plain",
    listContent := some [{ text := "item", isChecked := true }] }

/-! Helper lemmas. -/

theorem string_eq_of_data {a b : String} (h : a.data = b.data) : a = b := by
  cases a; cases b; exact congrArg String.mk h

theorem intercalate_sep_nil_cons {α : Type} (sep x : List α) (xs : List (List α)) :
    List.intercalate sep ([] :: x :: xs) = sep ++ List.intercalate sep (x :: xs) := by
  simp [List.intercalate, List.intersperse_cons_cons]

theorem pyJoin_blank_cons (d : String) (ds : List String) :
    pyJoin "\n" ("" :: d :: ds) = "\n" ++ pyJoin "\n" (d :: ds) := by
  apply string_eq_of_data
  show List.intercalate ("\n" : String).data (("" :: d :: ds).map String.data)
      = (("\n" : String) ++ pyJoin "\n" (d :: ds)).data
  rw [show (("" :: d :: ds).map String.data)
        = ([] : List Char) :: d.data :: ds.map String.data from rfl,
    show (("\n" : String)).data = ['\n'] from rfl, intercalate_sep_nil_cons]
  simp [pyJoin]

theorem convert_list_line_data (item : ListItem) :
    (convert_list_line item).data =
      (if item.isChecked then '+' else '-') :: ' ' :: item.text.data := by
  cases hb : item.isChecked <;>
    simp [convert_list_line, hb, show ("+" : String).data = ['+'] from rfl,
      show ("-" : String).data = ['-'] from rfl, show (" " : String).data = [' '] from rfl]

theorem convertAnns_ok (anns : List NoteAnn) (h : ∀ a ∈ anns, a.source = "WEBLINK") :
    convertAnns anns = .ok (anns.map ann_convert_weblink) := by
  induction anns with
  | nil => rfl
  | cons a rest ih =>
    have ha := h a (List.mem_cons_self a rest)
    have hr := ih fun x hx => h x (List.mem_cons_of_mem _ hx)
    simp [convertAnns, ha, hr]

theorem convertAnns_err (anns : List NoteAnn) (h : ∃ a ∈ anns, a.source ≠ "WEBLINK") :
    ∃ a ∈ anns, a.source ≠ "WEBLINK" ∧
      convertAnns anns =
        .error (.conversionError ("Unknown annotation type: \x27" ++ a.source ++ "\x27")) := by
  induction anns with
  | nil => simp at h
  | cons a rest ih =>
    by_cases ha : a.source = "WEBLINK"
    · obtain ⟨b, hb, hbs⟩ := h
      have hbrest : b ∈ rest := by
        rcases List.mem_cons.mp hb with h1 | h1
        · exact absurd (h1 ▸ ha) hbs
        · exact h1
      obtain ⟨c, hc, hcs, hceq⟩ := ih ⟨b, hbrest, hbs⟩
      exact ⟨c, List.mem_cons_of_mem _ hc, hcs, by simp [convertAnns, ha, hceq]⟩
    · exact ⟨a, List.mem_cons_self _ _, ha, by simp [convertAnns, ha]⟩

theorem convertAtts_ok (srcpath : FsPath) (isFile : FsPath → Bool) (ns : String)
    (atts : List Attachment)
    (h : ∀ a ∈ atts, isFile (srcpath ++ pathParts a.filePath) = true) :
    convertAtts srcpath isFile ns atts = .ok
      (atts.map (fun a => srcpath ++ pathParts a.filePath),
       atts.map (fun a => "[" ++ TB_ASSET_DIR ++ "/" ++ a.filePath ++ "]")) := by
  induction atts with
  | nil => rfl
  | cons a rest ih =>
    have ha := h a (List.mem_cons_self a rest)
    have hr := ih fun x hx => h x (List.mem_cons_of_mem _ hx)
    simp [convertAtts, ha, hr]

theorem convertAtts_err (srcpath : FsPath) (isFile : FsPath → Bool) (ns : String)
    (atts : List Attachment)
    (h : ∃ a ∈ atts, isFile (srcpath ++ pathParts a.filePath) = false) :
    ∃ a ∈ atts, isFile (srcpath ++ pathParts a.filePath) = false ∧
      convertAtts srcpath isFile ns atts =
        .error (.conversionError ("could not find file \x27" ++
          pathStr (srcpath ++ pathParts a.filePath) ++
          "\x27 referenced by note \x27" ++ ns ++ "\x27")) := by
  induction atts with
  | nil => simp at h
  | cons a rest ih =>
    by_cases ha : isFile (srcpath ++ pathParts a.filePath) = true
    · obtain ⟨b, hb, hbs⟩ := h
      have hbrest : b ∈ rest := by
        rcases List.mem_cons.mp hb with h1 | h1
        · rw [h1] at hbs; rw [hbs] at ha; exact absurd ha (by simp)
        · exact h1
      obtain ⟨c, hc, hcs, hceq⟩ := ih ⟨b, hbrest, hbs⟩
      exact ⟨c, List.mem_cons_of_mem _ hc, hcs, by simp [convertAtts, ha, hceq]⟩
    · refine ⟨a, List.mem_cons_self _ _, by simpa using ha, ?_⟩
      simp only [convertAtts]
      rw [if_neg (by simpa using ha)]

theorem pathParts_no_slash (s : String) (h : '/' ∉ s.data) : pathParts s = [s] := by
  have h1 : s.data.splitOn '/' = [s.data] := by
    apply List.splitOnP_eq_single
    intro y hy
    simp only [beq_iff_eq]
    exact fun heq => h (heq ▸ hy)
  simp [pathParts, pySplit, h1]

/-! Claim theorems. -/

/-- C6: the three "-date" fields of the produced metadata record each equal
the modification timestamp when the corresponding flag is true and are null
when it is false; in particular pinned=true, archived=false, trashed=false
gives pinnedDate = modification timestamp and null archived/trashed dates. -/
theorem claim_C6 (created mod : String) (p a t : Bool) (u : String) :
    ((new_tbundle_meta created mod p a t u).bear.pinnedDate
        = if p then some mod else none)
    ∧ ((new_tbundle_meta created mod p a t u).bear.archivedDate
        = if a then some mod else none)
    ∧ ((new_tbundle_meta created mod p a t u).bear.trashedDate
        = if t then some mod else none)
    ∧ (new_tbundle_meta created mod p a t u).bear.modificationDate = mod
    ∧ (new_tbundle_meta created mod true false false u).bear.pinnedDate = some mod
    ∧ (new_tbundle_meta created mod true false false u).bear.archivedDate = none
    ∧ (new_tbundle_meta created mod true false false u).bear.trashedDate = none :=
  ⟨rfl, rfl, rfl, rfl, rfl, rfl, rfl⟩

/-- C7: the modification timestamp is the note's edited-time integer
interpreted as microseconds since the epoch — the source's `10e5` divisor
is one million — floored to whole seconds and handed to the local-timezone
ISO-8601 renderer. -/
theorem claim_C7 (render : Int → String) (note : Note) (created uuid : String) :
    (convert_metadata render note created uuid).bear.modificationDate
      = render ⌊(note.userEditedTimestampUsec : ℚ) / (10 : ℚ) ^ 6⌋ := by
  have h : (10e5 : ℚ) = (10 : ℚ) ^ 6 := by norm_num
  simp only [convert_metadata, new_tbundle_meta, datetime_to_str, datetime_fromtimestamp, h]

/-- C10: a note with both a plain-text body and a checklist body uses the
plain text verbatim as the content; the checklist is silently ignored and
no error is raised. -/
theorem claim_C10 (note : Note) (ic : Bool) (t : String) (l : List ListItem)
    (annStr : String) (ht : note.textContent = some t)
    (_hl : note.listContent = some l)
    (hann : convert_note_annotations note = .ok annStr) :
    convert_note_text note ic = .ok
      ((if note.title = "" then (pySplit t '\n').headD "" else note.title),
       (if note.title = "" then [] else ["# " ++ note.title]) ++ [t, annStr] ++
         (if note.color = "DEFAULT" ∨ ic then [] else ["#" ++ note.color])) := by
  have hc : contentOf note = some t := by simp [contentOf, ht]
  simp only [convert_note_text, hc, hann]
  by_cases h1 : note.title = "" <;> by_cases h2 : note.color = "DEFAULT" ∨ ic <;>
    simp [h1, h2]

/-- Witness for C10 at a concrete note carrying both body shapes. -/
theorem claim_C10_witness :
    convert_note_text w10Note false = .ok
      ((if w10Note.title = "" then (pySplit "plain" '\n').headD "" else w10Note.title),
       (if w10Note.title = "" then [] else ["# " ++ w10Note.title]) ++ ["plain", ""] ++
         (if w10Note.color = "DEFAULT" ∨ false then [] else ["#" ++ w10Note.color])) :=
  claim_C10 w10Note false "plain" [{ text := "item", isChecked := true }] ""
    (by decide) (by decide) (by decide)

/-- C4: with a non-empty title the first body block is the heading-marked
title and the derived title is the raw title; with an empty title the
derived title is the first line of the rendered content and the body starts
directly with the content (no heading block is added). -/
theorem claim_C4 (note : Note) (ic : Bool) (c annStr : String)
    (hc : contentOf note = some c)
    (hann : convert_note_annotations note = .ok annStr) :
    (note.title ≠ "" →
      convert_note_text note ic = .ok
        (note.title, ["# " ++ note.title, c, annStr] ++
          (if note.color = "DEFAULT" ∨ ic then [] else ["#" ++ note.color])))
    ∧ (note.title = "" →
      convert_note_text note ic = .ok
        ((pySplit c '\n').headD "", [c, annStr] ++
          (if note.color = "DEFAULT" ∨ ic then [] else ["#" ++ note.color]))) := by
  constructor <;> intro h1 <;> simp only [convert_note_text, hc, hann] <;>
    by_cases h2 : note.color = "DEFAULT" ∨ ic <;> simp [h1, h2]

/-- Witness for C4 at a concrete non-empty-title note. -/
theorem claim_C4_witness :
    convert_note_text w4Note false = .ok
      (w4Note.title, ["# " ++ w4Note.title, "line1\nline2", ""] ++
        (if w4Note.color = "DEFAULT" ∨ false then [] else ["#" ++ w4Note.color])) :=
  (claim_C4 w4Note false "line1\nline2" "" (by decide) (by decide)).1 (by decide)

/-- C3: the Annotation Converter yields the empty string for a missing or
empty annotations list, and for a non-empty all-WEBLINK list exactly one
leading empty line (i.e. a leading newline once joined) followed by the
rendered blocks in input order, each `[title](url)` then `> description`,
newline-joined. -/
theorem claim_C3 (note : Note) :
    ((note.annotations = none ∨ note.annotations = some []) →
      convert_note_annotations note = .ok "")
    ∧ (∀ anns, note.annotations = some anns → anns ≠ [] →
      (∀ a ∈ anns, a.source = "WEBLINK") →
      convert_note_annotations note =
        .ok ("\n" ++ pyJoin "\n" (anns.map ann_convert_weblink)))
    ∧ (∀ a : NoteAnn, ann_convert_weblink a =
        "[" ++ a.title ++ "](" ++ a.url ++ ")\n> " ++ a.description) := by
  refine ⟨?_, ?_, fun a => rfl⟩
  · rintro (h | h) <;> simp [convert_note_annotations, h, convertAnns] <;> decide
  · intro anns hsome hne hall
    obtain ⟨a0, rest, rfl⟩ : ∃ x xs, anns = x :: xs := by
      cases anns with
      | nil => exact absurd rfl hne
      | cons x xs => exact ⟨x, xs, rfl⟩
    simp [convert_note_annotations, hsome, convertAnns_ok _ hall, pyJoin_blank_cons]

/-- Witness for C3 at a concrete single-WEBLINK note. -/
theorem claim_C3_witness :
    convert_note_annotations w3Note =
      .ok ("\n" ++ pyJoin "\n" ([w3Ann].map ann_convert_weblink)) :=
  (claim_C3 w3Note).2.1 [w3Ann] (by decide) (by decide) (by decide)

theorem pySplit_pyJoin (L : List String) (hne : L ≠ [])
    (hfree : ∀ s ∈ L, '\n' ∉ s.data) :
    pySplit (pyJoin "\n" L) '\n' = L := by
  have hfree' : ∀ l ∈ L.map String.data, '\n' ∉ l := by
    intro l hl
    obtain ⟨x, hx, rfl⟩ := List.mem_map.mp hl
    exact hfree x hx
  have hne' : L.map String.data ≠ [] := by simpa using hne
  have key : (List.intercalate ['\n'] (L.map String.data)).splitOn '\n' = L.map String.data :=
    List.splitOn_intercalate (L.map String.data) '\n' hfree' hne'
  show ((pyJoin "\n" L).data.splitOn '\n').map (fun l => ({ data := l } : String)) = L
  rw [show (pyJoin "\n" L).data = List.intercalate ['\n'] (L.map String.data) from rfl, key,
    List.map_map,
    show ((fun l => ({ data := l } : String)) ∘ String.data) = id from funext fun s => rfl,
    List.map_id]

theorem pyJoin_ne_empty_of_head (d : String) (ds : List String) (hd : d.data ≠ []) :
    pyJoin "\n" (d :: ds) ≠ "" := by
  intro hcontra
  have h0 : List.intercalate ['\n'] ((d :: ds).map String.data) = [] := by
    rw [show List.intercalate ['\n'] ((d :: ds).map String.data)
        = (pyJoin "\n" (d :: ds)).data from rfl, hcontra]
  cases ds with
  | nil =>
    simp [List.intercalate] at h0
    exact hd h0
  | cons e es =>
    rw [show ((d :: e :: es).map String.data)
        = d.data :: e.data :: (es.map String.data) from rfl] at h0
    simp [List.intercalate, List.intersperse_cons_cons] at h0

/-- C5: for a checklist whose item texts contain no newline, the rendered
content has one line per item, in input order, each the item's text
prefixed by `"+ "` when checked and `"- "` when unchecked (the shape of
`convert_list_line`). -/
theorem claim_C5 (items : List ListItem) (h : ∀ it ∈ items, '\n' ∉ it.text.data) :
    pyLines (convert_list items) = items.map convert_list_line := by
  cases items with
  | nil => decide
  | cons it rest =>
    have hfree : ∀ s ∈ (it :: rest).map convert_list_line, '\n' ∉ s.data := by
      intro s hs
      obtain ⟨x, hx, rfl⟩ := List.mem_map.mp hs
      rw [convert_list_line_data]
      intro hmem
      rcases List.mem_cons.mp hmem with h1 | hmem2
      · cases hb : x.isChecked <;> rw [hb] at h1 <;> exact absurd h1 (by decide)
      · rcases List.mem_cons.mp hmem2 with h2 | h3
        · exact absurd h2 (by decide)
        · exact h x hx h3
    have hne2 : convert_list (it :: rest) ≠ "" := by
      show pyJoin "\n" ((it :: rest).map convert_list_line) ≠ ""
      rw [List.map_cons]
      apply pyJoin_ne_empty_of_head
      rw [convert_list_line_data]
      exact List.cons_ne_nil _ _
    show (if convert_list (it :: rest) = "" then []
        else pySplit (convert_list (it :: rest)) '\n') = _
    rw [if_neg hne2]
    show pySplit (pyJoin "\n" ((it :: rest).map convert_list_line)) '\n' = _
    exact pySplit_pyJoin _ (by simp) hfree

/-- Witness for C5 at the spec's worked grocery checklist. -/
theorem claim_C5_witness :
    pyLines (convert_list [{ text := "milk", isChecked := false },
        { text := "eggs", isChecked := true }]) =
      [({ text := "milk", isChecked := false } : ListItem),
       { text := "eggs", isChecked := true }].map convert_list_line :=
  claim_C5 _ (by decide)

/-- C1 (amended): a note containing an annotation with an unknown source
discriminator aborts — `process_note` returns the `ConversionError` whose
message names the unrecognized discriminator (the offending note itself is
not part of the message, see the counterexample) — so the annotation is
never silently dropped. -/
theorem claim_C1 (render : Int → String) (note : Note) (created : String)
    (srcpath outdir : FsPath) (ic : Bool) (isFile existsFs : FsPath → Bool)
    (u1 u2 : String) (anns : List NoteAnn) (c : String)
    (hanns : note.annotations = some anns)
    (hbad : ∃ a ∈ anns, a.source ≠ "WEBLINK")
    (hc : contentOf note = some c) :
    ∃ a ∈ anns, a.source ≠ "WEBLINK" ∧
      process_note render note created srcpath outdir ic isFile existsFs u1 u2 =
        .error (.conversionError ("Unknown annotation type: \x27" ++ a.source ++ "\x27")) := by
  obtain ⟨a, ha, has, heq⟩ := convertAnns_err anns hbad
  refine ⟨a, ha, has, ?_⟩
  simp [process_note, convert_note_text, hc, convert_note_annotations, hanns, heq]

/-- Witness for C1 (amended) at a concrete note with a `BOOK` annotation. -/
theorem claim_C1_witness :
    ∃ a ∈ [({ source := "BOOK" } : NoteAnn)], a.source ≠ "WEBLINK" ∧
      process_note (fun _ => "ts") c1Note "c" ["src"] ["out"] false
          (fun _ => true) (fun _ => false) "u1" "u2" =
        .error (.conversionError ("Unknown annotation type: \x27" ++ a.source ++ "\x27")) :=
  claim_C1 (fun _ => "ts") c1Note "c" ["src"] ["out"] false (fun _ => true)
    (fun _ => false) "u1" "u2" [{ source := "BOOK" }] "body"
    (by decide) (by decide) (by decide)

/-- Counterexample for C1 as stated: at `c1Note` the raised error message
is exactly `Unknown annotation type: 'BOOK'`; it names the discriminator
but contains neither the note's title nor its repr, so the error does not
name the offending note. -/
theorem claim_C1_cex :
    convert_note_annotations c1Note =
      .error (.conversionError "Unknown annotation type: \x27BOOK\x27")
    ∧ process_note (fun _ => "ts") c1Note "c" ["src"] ["out"] false
        (fun _ => true) (fun _ => false) "u1" "u2" =
      .error (.conversionError "Unknown annotation type: \x27BOOK\x27")
    ∧ ¬ List.IsInfix "mynote".data "Unknown annotation type: \x27BOOK\x27".data
    ∧ ¬ List.IsInfix (noteRepr c1Note).data "Unknown annotation type: \x27BOOK\x27".data :=
  ⟨by decide, by decide, by decide, by decide⟩

/-- C2: a note referencing an attachment that is not a file under the
source directory makes `process_note` fail with the missing-file error —
naming both the missing path and the note's repr — and the error is
returned before `write_textbundle` runs, so no package directory is
created for the note. -/
theorem claim_C2 (render : Int → String) (note : Note) (created : String)
    (srcpath outdir : FsPath) (ic : Bool) (isFile existsFs : FsPath → Bool)
    (u1 u2 : String) (atts : List Attachment) (tt : String × List String)
    (hatts : note.attachments = some atts)
    (htext : convert_note_text note ic = .ok tt)
    (hmiss : ∃ a ∈ atts, isFile (srcpath ++ pathParts a.filePath) = false) :
    ∃ a ∈ atts, isFile (srcpath ++ pathParts a.filePath) = false ∧
      process_note render note created srcpath outdir ic isFile existsFs u1 u2 =
        .error (.conversionError ("could not find file \x27" ++
          pathStr (srcpath ++ pathParts a.filePath) ++
          "\x27 referenced by note \x27" ++ noteRepr note ++ "\x27")) := by
  obtain ⟨a, ha, haf, heq⟩ := convertAtts_err srcpath isFile (noteRepr note) atts hmiss
  refine ⟨a, ha, haf, ?_⟩
  obtain ⟨title, text⟩ := tt
  simp [process_note, htext, convert_note_attachments, hatts, heq]

/-- Witness for C2 at a concrete note with a dangling attachment. -/
theorem claim_C2_witness :
    ∃ a ∈ [({ filePath := "gone.png" } : Attachment)],
      (fun (_ : FsPath) => false) (["src"] ++ pathParts a.filePath) = false ∧
      process_note (fun _ => "ts") c2Note "c" ["src"] ["out"] false
          (fun _ => false) (fun _ => false) "u1" "u2" =
        .error (.conversionError ("could not find file \x27" ++
          pathStr (["src"] ++ pathParts a.filePath) ++
          "\x27 referenced by note \x27" ++ noteRepr c2Note ++ "\x27")) :=
  claim_C2 (fun _ => "ts") c2Note "c" ["src"] ["out"] false (fun _ => false)
    (fun _ => false) "u1" "u2" [{ filePath := "gone.png" }]
    ("n2", ["# n2", "body", ""]) (by decide) (by decide) (by decide)

/-- C8 (amended): the Attachment Resolver returns one embed marker per
attachment, in input order, each `[assets/<filePath>]`; the Package Writer
copies each asset into the asset subdirectory under its base filename, so
the marker matches the copy's relative path exactly when `filePath` has no
directory component (see the counterexample for the general mismatch). -/
theorem claim_C8 (note : Note) (srcpath : FsPath) (isFile : FsPath → Bool)
    (atts : List Attachment)
    (hatts : note.attachments = some atts)
    (hex : ∀ a ∈ atts, isFile (srcpath ++ pathParts a.filePath) = true) :
    convert_note_attachments note srcpath isFile = .ok
      (atts.map (fun a => srcpath ++ pathParts a.filePath),
       atts.map (fun a => "[" ++ TB_ASSET_DIR ++ "/" ++ a.filePath ++ "]"))
    ∧ ∀ a ∈ atts, ('/' ∉ a.filePath.data) →
      pathName (srcpath ++ pathParts a.filePath) = a.filePath := by
  constructor
  · simp [convert_note_attachments, hatts, convertAtts_ok srcpath isFile _ atts hex]
  · intro a _ hfree
    rw [pathParts_no_slash _ hfree]
    simp [pathName]

/-- Witness for C8 (amended) at a concrete single-attachment note. -/
theorem claim_C8_witness :
    convert_note_attachments w8Note ["src"] (fun _ => true) = .ok
      ([({ filePath := "pic.png" } : Attachment)].map
          (fun a => ["src"] ++ pathParts a.filePath),
       [({ filePath := "pic.png" } : Attachment)].map
          (fun a => "[" ++ TB_ASSET_DIR ++ "/" ++ a.filePath ++ "]"))
    ∧ ∀ a ∈ [({ filePath := "pic.png" } : Attachment)], ('/' ∉ a.filePath.data) →
      pathName (["src"] ++ pathParts a.filePath) = a.filePath :=
  claim_C8 w8Note ["src"] (fun _ => true) [{ filePath := "pic.png" }]
    (by decide) (by decide)

/-- Counterexample for C8 as stated: with attachment path `sub/pic.png`
the embed marker is `[assets/sub/pic.png]`, but the writer copies the
asset to `assets/pic.png` (its base filename), so the marker does not
reference the attachment's eventual relative path in the package. -/
theorem claim_C8_cex :
    convert_note_attachments c8Note ["takeout", "Keep"]
        (fun p => p == ["takeout", "Keep", "sub", "pic.png"]) =
      .ok ([["takeout", "Keep", "sub", "pic.png"]], ["[assets/sub/pic.png]"])
    ∧ (write_textbundle "n8" [] cMeta [["takeout", "Keep", "sub", "pic.png"]] ["out"]
        (fun _ => false) "uuid0000").map (fun b => b.assetCopies) =
      .ok [(["assets", "pic.png"], ["takeout", "Keep", "sub", "pic.png"])]
    ∧ "[assets/sub/pic.png]" ≠ "[" ++ pathStr ["assets", "pic.png"] ++ "]" :=
  ⟨by decide, by decide, by decide⟩

/-- C9: when the sanitized-title package directory already exists, the
writer never overwrites or merges: with a fresh 8-character suffix slot
available it creates a second, distinct directory whose name is the
existing one plus the first 8 characters of the fresh random identifier;
if even the suffixed name exists, directory creation fails instead of
touching the existing directory. -/
theorem claim_C9 (title : String) (text : List String) (meta : TBundleMeta)
    (assets : List FsPath) (outdir : FsPath) (existsFs : FsPath → Bool)
    (uuid : String) (hu : 8 ≤ uuid.data.length)
    (hcol : existsFs (outdir ++ [tb_base_title title]) = true) :
    (existsFs (outdir ++ [tb_base_title title ++ pySlice uuid 8]) = false →
      write_textbundle title text meta assets outdir existsFs uuid = .ok
        { dirName := tb_base_title title ++ pySlice uuid 8
          dirPath := outdir ++ [tb_base_title title ++ pySlice uuid 8]
          assetCopies := assets.map fun src => ([TB_ASSET_DIR, pathName src], src)
          metaRecord := meta
          contentText := pyJoin "\n" text }
      ∧ tb_base_title title ++ pySlice uuid 8 ≠ tb_base_title title
      ∧ (pySlice uuid 8).data.length = 8)
    ∧ (existsFs (outdir ++ [tb_base_title title ++ pySlice uuid 8]) = true →
      write_textbundle title text meta assets outdir existsFs uuid =
        .error (.fileExistsError
          (pathStr (outdir ++ [tb_base_title title ++ pySlice uuid 8])))) := by
  have hlen : (pySlice uuid 8).data.length = 8 := by
    simp only [pySlice, List.length_take]
    omega
  constructor
  · intro h2
    refine ⟨?_, ?_, hlen⟩
    · simp [write_textbundle, hcol, h2]
    · intro heq
      have h3 := congrArg (fun s => s.data.length) heq
      simp only [String.data_append, List.length_append, hlen] at h3
      omega
  · intro h2
    simp [write_textbundle, hcol, h2]

/-- Witness for C9 at a concrete collision with the output root. -/
theorem claim_C9_witness :
    (write_textbundle "T" [] cMeta [] ["out"] c9Exists "abcdefghij" = .ok
      { dirName := tb_base_title "T" ++ pySlice "abcdefghij" 8
        dirPath := ["out"] ++ [tb_base_title "T" ++ pySlice "abcdefghij" 8]
        assetCopies := ([] : List FsPath).map fun src => ([TB_ASSET_DIR, pathName src], src)
        metaRecord := cMeta
        contentText := pyJoin "\n" [] }
      ∧ tb_base_title "T" ++ pySlice "abcdefghij" 8 ≠ tb_base_title "T"
      ∧ (pySlice "abcdefghij" 8).data.length = 8) :=
  (claim_C9 "T" [] cMeta [] ["out"] c9Exists "abcdefghij"
    (by decide) (by decide)).1 (by decide)

end Keep2Bear
